import Mathlib

/-!
Shallow embedding of the pump-diagnosis core (alkavf71/pump-diagnosis-tool).

Python floats are modelled as exact rationals (`ℚ`); Python `round(x, n)`
(round-half-to-even per its documentation) is modelled as `roundHalfEven`
on the exact rational value.  Python dicts keyed by enum-like strings are
modelled as association lists over `String`; a `KeyError` on an unknown key
is modelled by the analyzer returning `none`.

The repository snapshot ships `src/config.py` and the four analysis modules
but not `utils/calculations.py` / `utils/lookup_tables.py`; the lookup
tables are taken from `src/config.py` (which defines tables of the same
names and is cited as the authority for them), and each missing helper
function is either modelled from the spec (doc comment starting
`Modelled from the spec:`) or passed as an explicit function parameter when
the spec leaves its formula out of scope.
-/

namespace PumpDiag

/-- Python `round(x, 2)` works half-to-even; this is that rule on an exact
rational, returning the nearest integer to `q` (ties to the even integer). -/
def roundHalfEven (q : ℚ) : ℤ :=
  let f := ⌊q⌋
  let r := q - f
  if r < 1/2 then f
  else if 1/2 < r then f + 1
  else if f % 2 = 0 then f else f + 1

/-- Python `round(x, 2)` on an exact rational. -/
def round2 (q : ℚ) : ℚ := (roundHalfEven (q * 100) : ℚ) / 100

/-- Python `round(x, 1)` on an exact rational. -/
def round1 (q : ℚ) : ℚ := (roundHalfEven (q * 10) : ℚ) / 10

/-! ## Reference tables (`src/config.py`) -/

/-- One entry of `PUMP_SIZE_DEFAULTS` in `src/config.py`. -/
structure PumpProfile where
  npshr : ℚ
  bep_flow : ℚ
  fla : ℚ
deriving DecidableEq, Repr

/-- `PUMP_SIZE_DEFAULTS` from `src/config.py`. -/
def PUMP_SIZE_DEFAULTS : List (String × PumpProfile) :=
  [("Small", ⟨3, 30, 15⟩), ("Medium", ⟨9/2, 100, 30⟩), ("Large", ⟨6, 250, 60⟩)]

/-- Dict access `PUMP_SIZE_DEFAULTS[pump_size]`; `none` models `KeyError`. -/
def lookupPump (s : String) : Option PumpProfile :=
  (PUMP_SIZE_DEFAULTS.find? (fun p => p.1 == s)).map Prod.snd

/-- One entry of `PRODUCT_PROPERTIES` in `src/config.py`. -/
structure ProductProfile where
  density : ℚ
  default_temp : ℚ
  risk_factor : ℕ
deriving DecidableEq, Repr

/-- `PRODUCT_PROPERTIES` from `src/config.py`. -/
def PRODUCT_PROPERTIES : List (String × ProductProfile) :=
  [("Gasoline", ⟨740, 30, 5⟩), ("Diesel", ⟨840, 25, 3⟩),
   ("Avtur", ⟨780, 28, 4⟩), ("Naphtha", ⟨700, 32, 5⟩)]

/-- Dict access `PRODUCT_PROPERTIES[product_type]`; `none` models `KeyError`. -/
def lookupProduct (s : String) : Option ProductProfile :=
  (PRODUCT_PROPERTIES.find? (fun p => p.1 == s)).map Prod.snd

/-- One foundation row of `ISO_LIMITS` in `src/config.py`. -/
structure IsoLimits where
  zone_a_max : ℚ
  zone_b_max : ℚ
  zone_c_max : ℚ
deriving DecidableEq, Repr

/-- `ISO_LIMITS` from `src/config.py` (the redundant `zone_d_min` field,
equal to `zone_c_max` in both rows, is omitted). -/
def ISO_LIMITS : List (String × IsoLimits) :=
  [("rigid", ⟨14/5, 9/2, 71/10⟩), ("flexible", ⟨9/2, 71/10, 56/5⟩)]

/-- Dict access `ISO_LIMITS[foundation_type]`; `none` models `KeyError`. -/
def lookupIso (s : String) : Option IsoLimits :=
  (ISO_LIMITS.find? (fun p => p.1 == s)).map Prod.snd

/-- Measurement axis; the source iterates the string list `["H", "V", "A"]`. -/
inductive Direction where
  | H | V | A
deriving DecidableEq, Repr

/-- `FAULT_MAPPING` from `src/config.py` (dict keyed by `"H"`, `"V"`, `"A"`). -/
def FAULT_MAPPING : Direction → String
  | .H => "Unbalance"
  | .V => "Mechanical Looseness / Foundation Issue"
  | .A => "Misalignment / Coupling Issue"

/-- ISO 10816-3 severity zone. -/
inductive Zone where
  | A | B | C | D
deriving DecidableEq, Repr

/-- `["A", "B", "C", "D"].index(z)`, the sort key used by the source. -/
def zoneIdx : Zone → ℕ
  | .A => 0
  | .B => 1
  | .C => 2
  | .D => 3

/-- The zone letter as the source's string. -/
def zoneLetter : Zone → String
  | .A => "A"
  | .B => "B"
  | .C => "C"
  | .D => "D"

/-! ## Vibration analysis (`src/modules/vibration_analysis.py`) -/

/-- A complete vibration reading for one unit (`VibrationReading` of §3 of
the design; the source reads these keys out of a dict). -/
structure VibrationData where
  DE_H : ℚ
  DE_V : ℚ
  DE_A : ℚ
  NDE_H : ℚ
  NDE_V : ℚ
  NDE_A : ℚ
  HF_5_16kHz : ℚ
  Demodulation : ℚ
deriving DecidableEq, Repr

/-- The `averages` dict built by `calculate_average_vibration`. -/
structure Averages where
  Avr_H : ℚ
  Avr_V : ℚ
  Avr_A : ℚ
  Overall_Max : ℚ
deriving DecidableEq, Repr

/-- `calculate_average_vibration`: per axis `round((DE + NDE) / 2, 2)`;
`Overall_Max = max(...)` over the three averages in insertion order. -/
def calculate_average_vibration (d : VibrationData) : Averages :=
  let avrH := round2 ((d.DE_H + d.NDE_H) / 2)
  let avrV := round2 ((d.DE_V + d.NDE_V) / 2)
  let avrA := round2 ((d.DE_A + d.NDE_A) / 2)
  ⟨avrH, avrV, avrA, max (max avrH avrV) avrA⟩

/-- The per-axis average, selected by axis name. -/
def avrOf (av : Averages) : Direction → ℚ
  | .H => av.Avr_H
  | .V => av.Avr_V
  | .A => av.Avr_A

/-- The drive-end amplitude of an axis (`DE_X` key of the reading). -/
def deOf (d : VibrationData) : Direction → ℚ
  | .H => d.DE_H
  | .V => d.DE_V
  | .A => d.DE_A

/-- The non-drive-end amplitude of an axis (`NDE_X` key of the reading). -/
def ndeOf (d : VibrationData) : Direction → ℚ
  | .H => d.NDE_H
  | .V => d.NDE_V
  | .A => d.NDE_A

/-- Modelled from the spec: `get_zone_classification` from
`utils/calculations.py` (absent from the snapshot).  Spec §4.3: compare the
axis average against the foundation-specific cumulative breakpoints
`zone_a_max`, `zone_b_max`, `zone_c_max` (above `zone_c_max` → zone D); a
reading exactly at a breakpoint belongs to the lower (safer) zone.  An
unknown foundation type fails the table lookup (ConfigurationError, §7). -/
def get_zone_classification (avg : ℚ) (foundation_type : String) : Option Zone :=
  (lookupIso foundation_type).map (fun lim =>
    if avg ≤ lim.zone_a_max then Zone.A
    else if avg ≤ lim.zone_b_max then Zone.B
    else if avg ≤ lim.zone_c_max then Zone.C
    else Zone.D)

/-- Descriptive fields of a zone (`get_zone_description`). -/
structure ZoneDesc where
  name : String
  color : String
  recommendation : String
deriving DecidableEq, Repr

/-- Modelled from the spec: `get_zone_description` from
`utils/calculations.py` (absent from the snapshot).  Spec §3 gives the
fields (name, color, recommendation) but not their text; no claim inspects
these strings, so representative constants are used. -/
def get_zone_description : Zone → ZoneDesc
  | .A => ⟨"Good", "green", "Newly commissioned condition"⟩
  | .B => ⟨"Acceptable", "yellow", "Acceptable for unrestricted long-term operation"⟩
  | .C => ⟨"Unsatisfactory", "orange", "Restricted operation - plan maintenance"⟩
  | .D => ⟨"Unacceptable", "red", "Damage risk - stop and repair"⟩

/-- Zone entry stored per axis by `classify_vibration_zones`. -/
structure ZoneInfo where
  zone : Zone
  name : String
  color : String
  recommendation : String
deriving DecidableEq, Repr

/-- The three per-axis entries of the `zones` dict. -/
structure Zones where
  zone_H : ZoneInfo
  zone_V : ZoneInfo
  zone_A : ZoneInfo
deriving DecidableEq, Repr

/-- Builds one `Zone_X` entry. -/
def mkZoneInfo (avg : ℚ) (foundation_type : String) : Option ZoneInfo :=
  (get_zone_classification avg foundation_type).map (fun z =>
    let d := get_zone_description z
    ⟨z, d.name, d.color, d.recommendation⟩)

/-- `classify_vibration_zones`: classifies each axis average; fails iff the
foundation type is unknown. -/
def classify_vibration_zones (av : Averages) (foundation_type : String) : Option Zones := do
  let zH ← mkZoneInfo av.Avr_H foundation_type
  let zV ← mkZoneInfo av.Avr_V foundation_type
  let zA ← mkZoneInfo av.Avr_A foundation_type
  pure ⟨zH, zV, zA⟩

/-- Per-direction fault entry (`fault_X` in the source's dict). -/
structure FaultEntry where
  type : String
  confidence : String
deriving DecidableEq, Repr

/-- The `faults` dict of `identify_fault_indicators`. -/
structure Faults where
  primary_fault : String
  primary_direction : Direction
  fault_H : FaultEntry
  fault_V : FaultEntry
  fault_A : FaultEntry
deriving DecidableEq, Repr

/-- Python `max(["H","V","A"], key=...)`: keeps the first element and
replaces it only on a strictly greater key. -/
def maxDirection (av : Averages) : Direction :=
  let best1 := if avrOf av .V > avrOf av .H then Direction.V else Direction.H
  if avrOf av .A > avrOf av best1 then Direction.A else best1

/-- Confidence band of `identify_fault_indicators`:
`"HIGH" if avg > 4.5 else "MEDIUM" if avg > 2.8 else "LOW"`. -/
def confidenceOf (avg : ℚ) : String :=
  if avg > 9/2 then "HIGH" else if avg > 14/5 then "MEDIUM" else "LOW"

/-- `identify_fault_indicators` from `src/modules/vibration_analysis.py`. -/
def identify_fault_indicators (av : Averages) : Faults :=
  let md := maxDirection av
  { primary_fault := FAULT_MAPPING md
    primary_direction := md
    fault_H := ⟨FAULT_MAPPING .H, confidenceOf av.Avr_H⟩
    fault_V := ⟨FAULT_MAPPING .V, confidenceOf av.Avr_V⟩
    fault_A := ⟨FAULT_MAPPING .A, confidenceOf av.Avr_A⟩ }

/-- The dict returned by `analyze_hf_vibration`. -/
structure HFAnalysis where
  hf_value : ℚ
  demod_value : ℚ
  cavitation_risk : String
  bearing_defect_risk : String
  recommendation : String
deriving DecidableEq, Repr

/-- `analyze_hf_vibration` from `src/modules/vibration_analysis.py`: the
cavitation threshold is 0.3 when the product is in the membership list
`["Gasoline", "Avtur", "Naphtha"]` and 0.5 otherwise (no table lookup). -/
def analyze_hf_vibration (d : VibrationData) (product_type : String) : HFAnalysis :=
  let hf_value := d.HF_5_16kHz
  let demod_value := d.Demodulation
  let cavitation_threshold : ℚ :=
    if product_type = "Gasoline" ∨ product_type = "Avtur" ∨ product_type = "Naphtha"
    then 3/10 else 1/2
  { hf_value
    demod_value
    cavitation_risk := if hf_value > cavitation_threshold then "HIGH" else "LOW"
    bearing_defect_risk := if demod_value > 1/2 then "HIGH" else "LOW"
    recommendation :=
      if hf_value > cavitation_threshold then
        "⚠️ High-frequency vibration indicates cavitation risk. Verify NPSHa."
      else if demod_value > 1/2 then
        "⚠️ Demodulation signal indicates early bearing defect."
      else
        "✅ HF vibration within normal range." }

/-- Python `max([zH, zV, zA], key=index)`: keeps the first element and
replaces it only on a strictly greater key. -/
def pyMaxZone3 (z1 z2 z3 : Zone) : Zone :=
  let m1 := if zoneIdx z2 > zoneIdx z1 then z2 else z1
  if zoneIdx z3 > zoneIdx m1 then z3 else m1

/-- Python `max(a, b, key=index)` on two zones: `b` wins only when strictly
more severe. -/
def pyMaxZone2 (a b : Zone) : Zone :=
  if zoneIdx b > zoneIdx a then b else a

/-- The dict returned by `generate_vibration_report`. -/
structure VibrationReport where
  averages : Averages
  zones : Zones
  faults : Faults
  hf_analysis : HFAnalysis
  overall_zone : Zone
  severity : String
  recommendation : String
deriving DecidableEq, Repr

/-- `generate_vibration_report` from `src/modules/vibration_analysis.py`.
Fails (models the Python exception) iff the foundation type is unknown. -/
def generate_vibration_report (d : VibrationData) (foundation_type : String)
    (product_type : String) : Option VibrationReport := do
  let averages := calculate_average_vibration d
  let zones ← classify_vibration_zones averages foundation_type
  let faults := identify_fault_indicators averages
  let hf_analysis := analyze_hf_vibration d product_type
  let overall_zone := pyMaxZone3 zones.zone_H.zone zones.zone_V.zone zones.zone_A.zone
  pure { averages, zones, faults, hf_analysis, overall_zone
         severity := (get_zone_description overall_zone).name
         recommendation := (get_zone_description overall_zone).recommendation }

/-! ## Mechanical aggregation (`src/src/modules/mechanical_analysis.py`) -/

/-- The dict returned by `analyze_mechanical_conditions`. -/
structure MechResult where
  driver : VibrationReport
  driven : VibrationReport
  primary_component : String
  overall_zone : Zone
  overall_severity : String
  primary_fault : String
  recommendations : List String
  has_issue : Bool
deriving DecidableEq, Repr

/-- `analyze_mechanical_conditions` from
`src/src/modules/mechanical_analysis.py`. -/
def analyze_mechanical_conditions (vibration_driver vibration_driven : VibrationData)
    (foundation_type : String) (product_type : String) : Option MechResult := do
  let driver_report ← generate_vibration_report vibration_driver foundation_type product_type
  let driven_report ← generate_vibration_report vibration_driven foundation_type product_type
  let driver_max := driver_report.averages.Overall_Max
  let driven_max := driven_report.averages.Overall_Max
  let primary_component := if driver_max > driven_max then "Motor (Driver)" else "Pump (Driven)"
  let primary_component_report := if driver_max > driven_max then driver_report else driven_report
  let overall_zone := pyMaxZone2 driver_report.overall_zone driven_report.overall_zone
  let recs1 : List String :=
    if driver_report.overall_zone = Zone.C ∨ driver_report.overall_zone = Zone.D then
      ["⚠️ Motor vibration Zone " ++ zoneLetter driver_report.overall_zone
        ++ " - check coupling alignment & rotor balance"]
    else []
  let recs2 : List String := recs1 ++
    (if driven_report.overall_zone = Zone.C ∨ driven_report.overall_zone = Zone.D then
      ["⚠️ Pump vibration Zone " ++ zoneLetter driven_report.overall_zone
        ++ " - check impeller balance & bearing condition"]
    else [])
  let recs3 : List String := recs2 ++
    (if primary_component_report.faults.primary_fault = "Misalignment" then
      ["🔧 Primary fault: Misalignment - perform laser alignment"]
    else if primary_component_report.faults.primary_fault = "Unbalance" then
      ["🔧 Primary fault: Unbalance - perform dynamic balancing"]
    else if primary_component_report.faults.primary_fault
        = "Mechanical Looseness / Foundation Issue" then
      ["🔧 Primary fault: Mechanical looseness - check foundation bolts & grouting"]
    else [])
  let recommendations : List String :=
    if recs3.isEmpty then recs3 ++ ["✅ Mechanical vibration within acceptable limits"]
    else recs3
  pure { driver := driver_report
         driven := driven_report
         primary_component
         overall_zone
         overall_severity := primary_component_report.severity
         primary_fault := primary_component_report.faults.primary_fault
         recommendations
         has_issue := decide (overall_zone = Zone.C ∨ overall_zone = Zone.D) }

/-! ## Electrical analysis (`src/modules/electrical_analysis.py`)

The imbalance/load helpers live in `utils/calculations.py`, absent from the
snapshot; spec §4.1 fixes their signatures (value, tier) but not every
breakpoint, so the analyzer takes them as explicit function parameters and
the theorems quantify over them. -/

/-- Imbalance tier (spec §4.1: tier ∈ NORMAL, WARNING, ALARM). -/
inductive VStat where
  | NORMAL | WARNING | ALARM
deriving DecidableEq, Repr

/-- Load tier (spec §4.1: UNDERLOAD, NORMAL, OVERLOAD_WARNING,
OVERLOAD_ALARM). -/
inductive LStat where
  | UNDERLOAD | NORMAL | OVERLOAD_WARNING | OVERLOAD_ALARM
deriving DecidableEq, Repr

/-- The `voltage` / `current` sub-dict of the electrical result. -/
structure PhaseBlock where
  l1 : ℚ
  l2 : ℚ
  l3 : ℚ
  average : ℚ
  imbalance_pct : ℚ
  status : VStat
deriving DecidableEq, Repr

/-- The `load` sub-dict of the electrical result. -/
structure LoadBlock where
  fla : ℚ
  percentage : ℚ
  status : LStat
deriving DecidableEq, Repr

/-- The dict returned by `analyze_electrical_conditions`. -/
structure ElecResult where
  voltage : PhaseBlock
  current : PhaseBlock
  load : LoadBlock
  overall_status : String
  recommendations : List String
  has_issue : Bool
deriving DecidableEq, Repr

/-- Decimal rendering used where the source interpolates a number into an
f-string; the exact text is presentation only and inspected by no claim. -/
def ratStr (q : ℚ) : String := toString q.num ++ "/" ++ toString q.den

/-- `analyze_electrical_conditions` from `src/modules/electrical_analysis.py`,
parametrized by the three helpers it imports from `utils/calculations.py`
(absent from the snapshot): `calculate_voltage_imbalance`,
`calculate_current_imbalance` (each returning imbalance % and tier) and
`calculate_load_percentage` (returning load % and tier).  Fails (models the
Python `KeyError`) iff the pump size is unknown. -/
def analyze_electrical_conditions
    (vImbF : ℚ → ℚ → ℚ → ℚ × VStat)
    (iImbF : ℚ → ℚ → ℚ → ℚ × VStat)
    (loadF : ℚ → ℚ → ℚ × LStat)
    (voltage_l1 voltage_l2 voltage_l3 current_l1 current_l2 current_l3 : ℚ)
    (pump_size : String) : Option ElecResult := do
  let prof ← lookupPump pump_size
  let fla := prof.fla
  let (v_imbalance, v_status) := vImbF voltage_l1 voltage_l2 voltage_l3
  let (i_imbalance, i_status) := iImbF current_l1 current_l2 current_l3
  let i_avg := (current_l1 + current_l2 + current_l3) / 3
  let (load_pct, load_status) := loadF i_avg fla
  let overall_status :=
    if v_status = VStat.ALARM ∨ i_status = VStat.ALARM ∨ load_status = LStat.OVERLOAD_ALARM
    then "CRITICAL"
    else if v_status = VStat.WARNING ∨ i_status = VStat.WARNING
        ∨ load_status = LStat.OVERLOAD_WARNING
    then "WARNING"
    else if load_status = LStat.UNDERLOAD then "WARNING"
    else "NORMAL"
  let recs1 : List String :=
    if v_imbalance > 2 then
      ["⚠️ Voltage imbalance " ++ ratStr v_imbalance ++ "% > 2% - check power supply quality"]
    else []
  let recs2 : List String := recs1 ++
    (if i_imbalance > 5 then
      ["⚠️ Current imbalance " ++ ratStr i_imbalance ++ "% > 5% - check winding & connections"]
    else [])
  let recs3 : List String := recs2 ++
    (if load_status = LStat.OVERLOAD_WARNING then
      ["⚠️ Motor load " ++ ratStr load_pct ++ "% > 110% FLA - check pump head & impeller"]
    else if load_status = LStat.OVERLOAD_ALARM then
      ["🚨 CRITICAL: Motor load " ++ ratStr load_pct ++ "% > 125% FLA - immediate action required"]
    else if load_status = LStat.UNDERLOAD then
      ["⚠️ Motor underload " ++ ratStr load_pct ++ "% < 80% FLA - check if pump operating below BEP"]
    else [])
  let recommendations : List String :=
    if recs3.isEmpty then recs3 ++ ["✅ Electrical parameters within normal range"]
    else recs3
  pure { voltage := { l1 := voltage_l1, l2 := voltage_l2, l3 := voltage_l3
                      average := round1 ((voltage_l1 + voltage_l2 + voltage_l3) / 3)
                      imbalance_pct := v_imbalance, status := v_status }
         current := { l1 := current_l1, l2 := current_l2, l3 := current_l3
                      average := round1 i_avg
                      imbalance_pct := i_imbalance, status := i_status }
         load := { fla, percentage := load_pct, status := load_status }
         overall_status
         recommendations
         has_issue := decide (overall_status ≠ "NORMAL") }

/-- `electrical_data`: the input dict of `generate_electrical_report`;
a `None` field models an absent key. -/
structure ElecData where
  voltage_l1 : Option ℚ
  voltage_l2 : Option ℚ
  voltage_l3 : Option ℚ
  current_l1 : Option ℚ
  current_l2 : Option ℚ
  current_l3 : Option ℚ
deriving DecidableEq, Repr

/-- `spec_data`: the input dict carrying pump size and product type;
a `None` field models an absent key. -/
structure SpecData where
  pump_size : Option String
  product_type : Option String
deriving DecidableEq, Repr

/-- A fully empty `electrical_data` dict. -/
def emptyElecData : ElecData := ⟨none, none, none, none, none, none⟩

/-- A fully empty `spec_data` dict. -/
def emptySpecData : SpecData := ⟨none, none⟩

/-- `generate_electrical_report` from `src/modules/electrical_analysis.py`:
`dict.get` defaults of 380.0 for voltages, 0.0 for currents, `"Medium"` for
the pump size, then delegates to `analyze_electrical_conditions`. -/
def generate_electrical_report
    (vImbF : ℚ → ℚ → ℚ → ℚ × VStat)
    (iImbF : ℚ → ℚ → ℚ → ℚ × VStat)
    (loadF : ℚ → ℚ → ℚ × LStat)
    (electrical_data : ElecData) (spec_data : SpecData) : Option ElecResult :=
  analyze_electrical_conditions vImbF iImbF loadF
    (electrical_data.voltage_l1.getD 380)
    (electrical_data.voltage_l2.getD 380)
    (electrical_data.voltage_l3.getD 380)
    (electrical_data.current_l1.getD 0)
    (electrical_data.current_l2.getD 0)
    (electrical_data.current_l3.getD 0)
    (spec_data.pump_size.getD "Medium")

/-! ## Hydraulic analysis (`src/modules/hydraulic_analysis.py`)

`calculate_npsha` and `calculate_differential_head` live in
`src/utils/calculations.py`, absent from the snapshot.  Spec §4.2 fixes
their shape — NPSHa is a pure function of suction pressure, product
density/temperature (temperature defaulting to the product's
`default_temp`), with the domain formula declared out of scope; head is
derived from the pressure difference and product density — so the exact
formulas are explicit function parameters and the product lookup they need
is modelled.  `calculate_flow_ratio` is fully specified by the spec and
modelled concretely. -/

/-- Flow-condition tier (spec §4.2). -/
inductive FlowStatus where
  | RECIRCULATION_RISK | NORMAL | OVERLOAD_CAVITATION_RISK
deriving DecidableEq, Repr

/-- Modelled from the spec: `calculate_npsha` from `src/utils/calculations.py`
(absent from the snapshot).  Spec §4.2: a pure function of suction pressure,
product properties and temperature (defaulting to the product's
`default_temp` when absent); the domain formula itself is out of the spec's
scope and is the parameter `npshaF` (suction pressure, density, temperature
→ meters).  An unknown product type fails the lookup (ConfigurationError). -/
def calculate_npsha (npshaF : ℚ → ℚ → ℚ → ℚ) (suction_pressure : ℚ)
    (product_type : String) (temperature : Option ℚ) : Option ℚ :=
  (lookupProduct product_type).map (fun p =>
    npshaF suction_pressure p.density (temperature.getD p.default_temp))

/-- Modelled from the spec: `calculate_differential_head` from
`src/utils/calculations.py` (absent from the snapshot).  Spec §4.2: derived
from the (discharge − suction) pressure difference and the product density;
the formula is the parameter `headF`. -/
def calculate_differential_head (headF : ℚ → ℚ → ℚ)
    (discharge_pressure suction_pressure : ℚ) (product_type : String) : Option ℚ :=
  (lookupProduct product_type).map (fun p =>
    headF (discharge_pressure - suction_pressure) p.density)

/-- Modelled from the spec: `calculate_flow_ratio` from
`src/utils/calculations.py` (absent from the snapshot).  Spec §4.2: flow
ratio = flow_rate ÷ BEP flow for the pump size, classified
RECIRCULATION_RISK below 60%, OVERLOAD_CAVITATION_RISK above 120%, NORMAL
otherwise.  An unknown pump size fails the lookup. -/
def calculate_flow_ratio (flow_rate : ℚ) (pump_size : String) : Option (ℚ × FlowStatus) :=
  (lookupPump pump_size).map (fun prof =>
    let ratio := flow_rate / prof.bep_flow
    (ratio,
      if ratio < 3/5 then FlowStatus.RECIRCULATION_RISK
      else if ratio > 6/5 then FlowStatus.OVERLOAD_CAVITATION_RISK
      else FlowStatus.NORMAL))

/-- The dict returned by `analyze_hydraulic_conditions`. -/
structure HydroResult where
  npsha : ℚ
  npshr : ℚ
  npsha_margin : ℚ
  cavitation_risk : String
  cavitation_status : String
  head : ℚ
  flow_rate : ℚ
  bep_flow : ℚ
  flow_ratio : ℚ
  flow_status : FlowStatus
  flow_recommendation : String
  has_issue : Bool
deriving DecidableEq, Repr

/-- `analyze_hydraulic_conditions` from `src/modules/hydraulic_analysis.py`,
parametrized by the out-of-scope NPSHa and head formulas.  The 1.0 m safety
margin is the fixed local constant of the source (`safety_margin = 1.0`),
not an input. -/
def analyze_hydraulic_conditions (npshaF : ℚ → ℚ → ℚ → ℚ) (headF : ℚ → ℚ → ℚ)
    (suction_pressure discharge_pressure flow_rate : ℚ)
    (product_type pump_size : String) (temperature : Option ℚ) : Option HydroResult := do
  let prof ← lookupPump pump_size
  let npshr := prof.npshr
  let bep_flow := prof.bep_flow
  let npsha ← calculate_npsha npshaF suction_pressure product_type temperature
  let head ← calculate_differential_head headF discharge_pressure suction_pressure product_type
  let (flow_ratio, flow_status) ← calculate_flow_ratio flow_rate pump_size
  let safety_margin : ℚ := 1
  let npsha_margin := npsha - (npshr + safety_margin)
  let cavitation_risk :=
    if npsha_margin < 0 then "HIGH"
    else if npsha_margin < 1 then "MEDIUM"
    else "LOW"
  let cavitation_status :=
    if npsha_margin < 0 then "⚠️ CRITICAL: NPSHa < NPSHr + safety margin"
    else if npsha_margin < 1 then "⚠️ WARNING: Low NPSHa margin"
    else "✅ NPSHa adequate"
  let flow_recommendation :=
    if flow_status = FlowStatus.RECIRCULATION_RISK then
      "⚠️ Flow < 60% BEP - risk of recirculation & vibration"
    else if flow_status = FlowStatus.OVERLOAD_CAVITATION_RISK then
      "⚠️ Flow > 120% BEP - risk of cavitation & overload"
    else "✅ Flow within acceptable range"
  pure { npsha, npshr
         npsha_margin := round2 npsha_margin
         cavitation_risk, cavitation_status
         head, flow_rate, bep_flow, flow_ratio, flow_status, flow_recommendation
         has_issue := decide (cavitation_risk ≠ "LOW" ∨ flow_status ≠ FlowStatus.NORMAL) }

/-- `operational_data`: the input dict of `generate_hydraulic_report`;
a `None` field models an absent key. -/
structure OperData where
  suction_pressure : Option ℚ
  discharge_pressure : Option ℚ
  flow_rate : Option ℚ
deriving DecidableEq, Repr

/-- A fully empty `operational_data` dict. -/
def emptyOperData : OperData := ⟨none, none, none⟩

/-- `generate_hydraulic_report` from `src/modules/hydraulic_analysis.py`:
`dict.get` defaults of 0.0 for the pressures and flow, `"Diesel"` for the
product, `"Medium"` for the pump size; no temperature is passed. -/
def generate_hydraulic_report (npshaF : ℚ → ℚ → ℚ → ℚ) (headF : ℚ → ℚ → ℚ)
    (operational_data : OperData) (spec_data : SpecData) : Option HydroResult :=
  analyze_hydraulic_conditions npshaF headF
    (operational_data.suction_pressure.getD 0)
    (operational_data.discharge_pressure.getD 0)
    (operational_data.flow_rate.getD 0)
    (spec_data.product_type.getD "Diesel")
    (spec_data.pump_size.getD "Medium")
    none

/-! ## Theorems -/

/-- `roundHalfEven` moves a rational by at most one half. -/
theorem abs_roundHalfEven_sub_le (q : ℚ) : |(roundHalfEven q : ℚ) - q| ≤ 1/2 := by
  have h0 : (⌊q⌋ : ℚ) ≤ q := Int.floor_le q
  have h1 : q < ⌊q⌋ + 1 := Int.lt_floor_add_one q
  simp only [roundHalfEven]
  split_ifs with hr1 hr2 hp <;> rw [abs_le] <;> push_cast <;> constructor <;> linarith

/-- `round2` moves a rational by at most `1/200`. -/
theorem abs_round2_sub_le (q : ℚ) : |round2 q - q| ≤ 1/200 := by
  have h := abs_roundHalfEven_sub_le (q * 100)
  rw [abs_le] at h ⊢
  unfold round2
  constructor <;> [linarith [h.1]; linarith [h.2]]

/-- The rounded mean of two rationals stays within `1/200` of their span. -/
theorem round2_mean_between (a b : ℚ) :
    min a b - 1/200 ≤ round2 ((a + b) / 2) ∧ round2 ((a + b) / 2) ≤ max a b + 1/200 := by
  have h := abs_round2_sub_le ((a + b) / 2)
  rw [abs_le] at h
  constructor <;>
    linarith [min_le_left a b, min_le_right a b, le_max_left a b, le_max_right a b, h.1, h.2]

/-- C3 (corrected): as stated the claim fails — rounding the mean to two
decimals can leave the interval `[min(DE_X, NDE_X), max(DE_X, NDE_X)]`.
Concretely, with `DE_H = NDE_H = 0.005` the computed `Avr_H` is `0.00`,
strictly below `min = max = 0.005`. -/
theorem avr_between_counterexample :
    ¬ (min ((1:ℚ)/200) ((1:ℚ)/200)
        ≤ (calculate_average_vibration ⟨1/200, 0, 0, 1/200, 0, 0, 0, 0⟩).Avr_H ∧
       (calculate_average_vibration ⟨1/200, 0, 0, 1/200, 0, 0, 0, 0⟩).Avr_H
        ≤ max ((1:ℚ)/200) ((1:ℚ)/200)) := by
  have hround : roundHalfEven ((1:ℚ)/2) = 0 := by
    have hfl : ⌊(1:ℚ)/2⌋ = 0 := by norm_num
    simp only [roundHalfEven, hfl]
    norm_num
  have hv : (calculate_average_vibration ⟨1/200, 0, 0, 1/200, 0, 0, 0, 0⟩).Avr_H = 0 := by
    show round2 (((1:ℚ)/200 + 1/200) / 2) = 0
    have h1 : (((1:ℚ)/200 + 1/200) / 2) * 100 = 1/2 := by norm_num
    simp only [round2, h1, hround]
    norm_num
  rw [hv]
  norm_num

/-- C3 (amended): for every vibration reading and axis, the computed
per-axis average `Avr_X` (the two-decimal rounding of `(DE_X + NDE_X)/2`)
lies between `min(DE_X, NDE_X) − 0.005` and `max(DE_X, NDE_X) + 0.005`
inclusive. -/
theorem avr_between_minmax_rounding (d : VibrationData) (dir : Direction) :
    min (deOf d dir) (ndeOf d dir) - 1/200 ≤ avrOf (calculate_average_vibration d) dir ∧
    avrOf (calculate_average_vibration d) dir ≤ max (deOf d dir) (ndeOf d dir) + 1/200 := by
  cases dir <;>
    simpa only [calculate_average_vibration, avrOf, deOf, ndeOf] using
      round2_mean_between _ _

/-- C4: for every hydraulic input (over any NPSHa/head formula), the
cavitation risk is HIGH iff `npsha < npshr + 1.0`, MEDIUM iff
`0 ≤ npsha − (npshr + 1.0) < 1.0`, LOW otherwise; at the exact boundary
`npsha = npshr + 1.0` the result is MEDIUM.  The 1.0 m safety margin is a
constant of `analyze_hydraulic_conditions`, not one of its inputs. -/
theorem cavitation_risk_tiers
    (npshaF : ℚ → ℚ → ℚ → ℚ) (headF : ℚ → ℚ → ℚ)
    (sp dp fl : ℚ) (pt ps : String) (t : Option ℚ) (r : HydroResult)
    (h : analyze_hydraulic_conditions npshaF headF sp dp fl pt ps t = some r) :
    (r.cavitation_risk = "HIGH" ↔ r.npsha < r.npshr + 1) ∧
    (r.cavitation_risk = "MEDIUM" ↔
      0 ≤ r.npsha - (r.npshr + 1) ∧ r.npsha - (r.npshr + 1) < 1) ∧
    (r.cavitation_risk = "LOW" ↔ 1 ≤ r.npsha - (r.npshr + 1)) ∧
    (r.npsha = r.npshr + 1 → r.cavitation_risk = "MEDIUM") := by
  simp only [analyze_hydraulic_conditions, calculate_npsha, calculate_differential_head,
    calculate_flow_ratio] at h
  cases hpp : lookupPump ps with
  | none => rw [hpp] at h; simp at h
  | some prof =>
    rw [hpp] at h
    cases hpr : lookupProduct pt with
    | none => rw [hpr] at h; simp at h
    | some prod =>
      rw [hpr] at h
      simp only [Option.map_some', Option.some_bind] at h
      injection h with h'
      subst h'
      simp only []
      split_ifs with h1 h2 <;> simp_all
      all_goals first
        | linarith
        | (constructor <;> linarith)

/-- Witness for `cavitation_risk_tiers` at a concrete input. -/
theorem cavitation_risk_tiers_witness :
    ∃ r, analyze_hydraulic_conditions (fun _ _ _ => 5) (fun _ _ => 1)
        50 450 20 "Diesel" "Medium" none = some r ∧
      ((r.cavitation_risk = "HIGH" ↔ r.npsha < r.npshr + 1) ∧
       (r.cavitation_risk = "MEDIUM" ↔
         0 ≤ r.npsha - (r.npshr + 1) ∧ r.npsha - (r.npshr + 1) < 1) ∧
       (r.cavitation_risk = "LOW" ↔ 1 ≤ r.npsha - (r.npshr + 1)) ∧
       (r.npsha = r.npshr + 1 → r.cavitation_risk = "MEDIUM")) := by
  have h0 : (analyze_hydraulic_conditions (fun _ _ _ => (5:ℚ)) (fun _ _ => (1:ℚ))
      50 450 20 "Diesel" "Medium" none).isSome = true := rfl
  have hr := (Option.some_get h0).symm
  exact ⟨_, hr, cavitation_risk_tiers (fun _ _ _ => 5) (fun _ _ => 1) 50 450 20 "Diesel"
    "Medium" none _ hr⟩

/-- C5: for every electrical input (over any imbalance/load helper), the
overall status is the max-escalation of the three sub-metric statuses:
CRITICAL iff a sub-metric is ALARM or OVERLOAD_ALARM; otherwise WARNING iff
one is WARNING, OVERLOAD_WARNING, or UNDERLOAD; otherwise NORMAL. -/
theorem electrical_status_escalation
    (vImbF iImbF : ℚ → ℚ → ℚ → ℚ × VStat) (loadF : ℚ → ℚ → ℚ × LStat)
    (v1 v2 v3 i1 i2 i3 : ℚ) (ps : String) (r : ElecResult)
    (h : analyze_electrical_conditions vImbF iImbF loadF v1 v2 v3 i1 i2 i3 ps = some r) :
    (r.overall_status = "CRITICAL" ↔
      r.voltage.status = VStat.ALARM ∨ r.current.status = VStat.ALARM ∨
        r.load.status = LStat.OVERLOAD_ALARM) ∧
    (¬(r.voltage.status = VStat.ALARM ∨ r.current.status = VStat.ALARM ∨
        r.load.status = LStat.OVERLOAD_ALARM) →
      (r.overall_status = "WARNING" ↔
        r.voltage.status = VStat.WARNING ∨ r.current.status = VStat.WARNING ∨
          r.load.status = LStat.OVERLOAD_WARNING ∨ r.load.status = LStat.UNDERLOAD)) ∧
    (¬(r.voltage.status = VStat.ALARM ∨ r.current.status = VStat.ALARM ∨
        r.load.status = LStat.OVERLOAD_ALARM) →
     ¬(r.voltage.status = VStat.WARNING ∨ r.current.status = VStat.WARNING ∨
        r.load.status = LStat.OVERLOAD_WARNING ∨ r.load.status = LStat.UNDERLOAD) →
      r.overall_status = "NORMAL") := by
  simp only [analyze_electrical_conditions] at h
  cases hpp : lookupPump ps with
  | none => rw [hpp] at h; simp at h
  | some prof =>
    rw [hpp] at h
    simp only [Option.bind_eq_bind, Option.some_bind] at h
    rcases hv : vImbF v1 v2 v3 with ⟨vi, vs⟩
    rcases hi : iImbF i1 i2 i3 with ⟨ii, ist⟩
    rcases hl : loadF ((i1 + i2 + i3) / 3) prof.fla with ⟨lp, ls⟩
    rw [hv, hi, hl] at h
    injection h with h'
    subst h'
    cases vs <;> cases ist <;> cases ls <;> simp_all

/-- Witness for `electrical_status_escalation` at a concrete input. -/
theorem electrical_status_escalation_witness :
    ∃ r, analyze_electrical_conditions
        (fun _ _ _ => (0, VStat.NORMAL)) (fun _ _ _ => (0, VStat.NORMAL))
        (fun _ _ => (100, LStat.NORMAL)) 380 380 380 30 30 30 "Medium" = some r ∧
      ((r.overall_status = "CRITICAL" ↔
        r.voltage.status = VStat.ALARM ∨ r.current.status = VStat.ALARM ∨
          r.load.status = LStat.OVERLOAD_ALARM) ∧
      (¬(r.voltage.status = VStat.ALARM ∨ r.current.status = VStat.ALARM ∨
          r.load.status = LStat.OVERLOAD_ALARM) →
        (r.overall_status = "WARNING" ↔
          r.voltage.status = VStat.WARNING ∨ r.current.status = VStat.WARNING ∨
            r.load.status = LStat.OVERLOAD_WARNING ∨ r.load.status = LStat.UNDERLOAD)) ∧
      (¬(r.voltage.status = VStat.ALARM ∨ r.current.status = VStat.ALARM ∨
          r.load.status = LStat.OVERLOAD_ALARM) →
       ¬(r.voltage.status = VStat.WARNING ∨ r.current.status = VStat.WARNING ∨
          r.load.status = LStat.OVERLOAD_WARNING ∨ r.load.status = LStat.UNDERLOAD) →
        r.overall_status = "NORMAL")) := by
  have h0 : (analyze_electrical_conditions
      (fun _ _ _ => ((0:ℚ), VStat.NORMAL)) (fun _ _ _ => ((0:ℚ), VStat.NORMAL))
      (fun _ _ => ((100:ℚ), LStat.NORMAL)) 380 380 380 30 30 30 "Medium").isSome = true := rfl
  have hr := (Option.some_get h0).symm
  exact ⟨_, hr, electrical_status_escalation _ _ _ 380 380 380 30 30 30 "Medium" _ hr⟩

/-- C7: the driver (motor) is named dominant iff its `Overall_Max` is
strictly greater than the driven unit's; on ties the driven (pump) wins. -/
theorem dominant_component_strict (dr dn : VibrationData) (ft pt : String) (r : MechResult)
    (h : analyze_mechanical_conditions dr dn ft pt = some r) :
    (r.primary_component = "Motor (Driver)" ↔
      r.driven.averages.Overall_Max < r.driver.averages.Overall_Max) ∧
    (r.primary_component = "Pump (Driven)" ↔
      ¬ r.driven.averages.Overall_Max < r.driver.averages.Overall_Max) ∧
    (r.driver.averages.Overall_Max = r.driven.averages.Overall_Max →
      r.primary_component = "Pump (Driven)") := by
  simp only [analyze_mechanical_conditions] at h
  cases hd : generate_vibration_report dr ft pt with
  | none => rw [hd] at h; simp at h
  | some drr =>
    rw [hd] at h
    cases hn : generate_vibration_report dn ft pt with
    | none => rw [hn] at h; simp at h
    | some dnr =>
      rw [hn] at h
      simp only [Option.bind_eq_bind, Option.some_bind] at h
      injection h with h'
      subst h'
      simp only []
      split_ifs with hgt <;> (refine ⟨?_, ?_, ?_⟩ <;> simp_all) <;> (intro he; linarith)

/-- Witness for `dominant_component_strict` at a concrete input pair. -/
theorem dominant_component_strict_witness :
    ∃ r, analyze_mechanical_conditions ⟨3, 1, 1, 3, 1, 1, 0, 0⟩ ⟨1, 1, 1, 1, 1, 1, 0, 0⟩
        "rigid" "Diesel" = some r ∧
      ((r.primary_component = "Motor (Driver)" ↔
        r.driven.averages.Overall_Max < r.driver.averages.Overall_Max) ∧
      (r.primary_component = "Pump (Driven)" ↔
        ¬ r.driven.averages.Overall_Max < r.driver.averages.Overall_Max) ∧
      (r.driver.averages.Overall_Max = r.driven.averages.Overall_Max →
        r.primary_component = "Pump (Driven)")) := by
  have h0 : (analyze_mechanical_conditions ⟨3, 1, 1, 3, 1, 1, 0, 0⟩ ⟨1, 1, 1, 1, 1, 1, 0, 0⟩
      "rigid" "Diesel").isSome = true := rfl
  have hr := (Option.some_get h0).symm
  exact ⟨_, hr, dominant_component_strict _ _ "rigid" "Diesel" _ hr⟩

/-- `pyMaxZone3` returns one of its arguments, dominates all three under
the `zoneIdx` order, and is invariant under permuting its arguments. -/
theorem pyMaxZone3_spec (a b c : Zone) :
    (pyMaxZone3 a b c = a ∨ pyMaxZone3 a b c = b ∨ pyMaxZone3 a b c = c) ∧
    zoneIdx a ≤ zoneIdx (pyMaxZone3 a b c) ∧
    zoneIdx b ≤ zoneIdx (pyMaxZone3 a b c) ∧
    zoneIdx c ≤ zoneIdx (pyMaxZone3 a b c) ∧
    pyMaxZone3 b a c = pyMaxZone3 a b c ∧
    pyMaxZone3 a c b = pyMaxZone3 a b c ∧
    pyMaxZone3 c b a = pyMaxZone3 a b c ∧
    pyMaxZone3 b c a = pyMaxZone3 a b c ∧
    pyMaxZone3 c a b = pyMaxZone3 a b c := by
  cases a <;> cases b <;> cases c <;> decide

/-- C8: the report's `overall_zone` is the most severe of the three
per-axis zones under the order A < B < C < D (it is one of them and
dominates each under `zoneIdx`), and the result does not depend on the
order in which the three axes are folded. -/
theorem overall_zone_worst_invariant (d : VibrationData) (ft pt : String) (r : VibrationReport)
    (h : generate_vibration_report d ft pt = some r) :
    (r.overall_zone = r.zones.zone_H.zone ∨ r.overall_zone = r.zones.zone_V.zone ∨
      r.overall_zone = r.zones.zone_A.zone) ∧
    zoneIdx r.zones.zone_H.zone ≤ zoneIdx r.overall_zone ∧
    zoneIdx r.zones.zone_V.zone ≤ zoneIdx r.overall_zone ∧
    zoneIdx r.zones.zone_A.zone ≤ zoneIdx r.overall_zone ∧
    pyMaxZone3 r.zones.zone_V.zone r.zones.zone_H.zone r.zones.zone_A.zone = r.overall_zone ∧
    pyMaxZone3 r.zones.zone_H.zone r.zones.zone_A.zone r.zones.zone_V.zone = r.overall_zone ∧
    pyMaxZone3 r.zones.zone_A.zone r.zones.zone_V.zone r.zones.zone_H.zone = r.overall_zone ∧
    pyMaxZone3 r.zones.zone_V.zone r.zones.zone_A.zone r.zones.zone_H.zone = r.overall_zone ∧
    pyMaxZone3 r.zones.zone_A.zone r.zones.zone_H.zone r.zones.zone_V.zone = r.overall_zone := by
  simp only [generate_vibration_report] at h
  cases hz : classify_vibration_zones (calculate_average_vibration d) ft with
  | none => rw [hz] at h; simp at h
  | some zs =>
    rw [hz] at h
    simp only [Option.bind_eq_bind, Option.some_bind] at h
    injection h with h'
    subst h'
    exact pyMaxZone3_spec zs.zone_H.zone zs.zone_V.zone zs.zone_A.zone

/-- Witness for `overall_zone_worst_invariant` at a concrete reading. -/
theorem overall_zone_worst_invariant_witness :
    ∃ r, generate_vibration_report ⟨5, 2, 1, 4, 2, 1, 0, 0⟩ "rigid" "Diesel" = some r ∧
      ((r.overall_zone = r.zones.zone_H.zone ∨ r.overall_zone = r.zones.zone_V.zone ∨
        r.overall_zone = r.zones.zone_A.zone) ∧
      zoneIdx r.zones.zone_H.zone ≤ zoneIdx r.overall_zone ∧
      zoneIdx r.zones.zone_V.zone ≤ zoneIdx r.overall_zone ∧
      zoneIdx r.zones.zone_A.zone ≤ zoneIdx r.overall_zone ∧
      pyMaxZone3 r.zones.zone_V.zone r.zones.zone_H.zone r.zones.zone_A.zone = r.overall_zone ∧
      pyMaxZone3 r.zones.zone_H.zone r.zones.zone_A.zone r.zones.zone_V.zone = r.overall_zone ∧
      pyMaxZone3 r.zones.zone_A.zone r.zones.zone_V.zone r.zones.zone_H.zone = r.overall_zone ∧
      pyMaxZone3 r.zones.zone_V.zone r.zones.zone_A.zone r.zones.zone_H.zone = r.overall_zone ∧
      pyMaxZone3 r.zones.zone_A.zone r.zones.zone_H.zone r.zones.zone_V.zone = r.overall_zone) := by
  have h0 : (generate_vibration_report ⟨5, 2, 1, 4, 2, 1, 0, 0⟩ "rigid" "Diesel").isSome
      = true := rfl
  have hr := (Option.some_get h0).symm
  exact ⟨_, hr, overall_zone_worst_invariant _ "rigid" "Diesel" _ hr⟩

/-- C6: `primary_direction` is the axis with the largest per-axis average
under the tie priority H > V > A (H wins all ties; V needs to beat H
strictly but only tie A; A must beat both strictly), and `primary_fault`
is the `FAULT_MAPPING` image of that axis. -/
theorem primary_direction_argmax (d : VibrationData) :
    ((identify_fault_indicators (calculate_average_vibration d)).primary_direction
        = Direction.H ↔
      (calculate_average_vibration d).Avr_V ≤ (calculate_average_vibration d).Avr_H ∧
      (calculate_average_vibration d).Avr_A ≤ (calculate_average_vibration d).Avr_H) ∧
    ((identify_fault_indicators (calculate_average_vibration d)).primary_direction
        = Direction.V ↔
      (calculate_average_vibration d).Avr_H < (calculate_average_vibration d).Avr_V ∧
      (calculate_average_vibration d).Avr_A ≤ (calculate_average_vibration d).Avr_V) ∧
    ((identify_fault_indicators (calculate_average_vibration d)).primary_direction
        = Direction.A ↔
      (calculate_average_vibration d).Avr_H < (calculate_average_vibration d).Avr_A ∧
      (calculate_average_vibration d).Avr_V < (calculate_average_vibration d).Avr_A) ∧
    (identify_fault_indicators (calculate_average_vibration d)).primary_fault
      = FAULT_MAPPING
        (identify_fault_indicators (calculate_average_vibration d)).primary_direction := by
  simp only [identify_fault_indicators, maxDirection, avrOf]
  split_ifs with h1 h2 h3 <;> refine ⟨?_, ?_, ?_, by trivial⟩ <;> simp_all <;> linarith

/-- Appending the fallback message when the list is empty never leaves the
list empty: the shape of the final recommendations assignment. -/
theorem fallback_append_ne_nil (l : List String) (m : String) :
    (if l.isEmpty then l ++ [m] else l) ≠ [] := by
  cases l <;> simp

/-- C10: the recommendation lists of an electrical assessment and of a
mechanical assessment are never empty — when nothing triggers, the
normal-confirmation message is appended in place. -/
theorem recommendations_nonempty
    (vImbF iImbF : ℚ → ℚ → ℚ → ℚ × VStat) (loadF : ℚ → ℚ → ℚ × LStat)
    (v1 v2 v3 i1 i2 i3 : ℚ) (ps : String) (re : ElecResult)
    (dr dn : VibrationData) (ft pt : String) (rm : MechResult)
    (he : analyze_electrical_conditions vImbF iImbF loadF v1 v2 v3 i1 i2 i3 ps = some re)
    (hm : analyze_mechanical_conditions dr dn ft pt = some rm) :
    re.recommendations ≠ [] ∧ rm.recommendations ≠ [] := by
  constructor
  · simp only [analyze_electrical_conditions] at he
    cases hpp : lookupPump ps with
    | none => rw [hpp] at he; simp at he
    | some prof =>
      rw [hpp] at he
      simp only [Option.bind_eq_bind, Option.some_bind] at he
      injection he with h'
      subst h'
      exact fallback_append_ne_nil _ _
  · simp only [analyze_mechanical_conditions] at hm
    cases hd : generate_vibration_report dr ft pt with
    | none => rw [hd] at hm; simp at hm
    | some drr =>
      rw [hd] at hm
      cases hn : generate_vibration_report dn ft pt with
      | none => rw [hn] at hm; simp at hm
      | some dnr =>
        rw [hn] at hm
        simp only [Option.bind_eq_bind, Option.some_bind] at hm
        injection hm with h'
        subst h'
        exact fallback_append_ne_nil _ _

/-- Witness for `recommendations_nonempty` at concrete inputs. -/
theorem recommendations_nonempty_witness :
    ∃ re rm, analyze_electrical_conditions
        (fun _ _ _ => (0, VStat.NORMAL)) (fun _ _ _ => (0, VStat.NORMAL))
        (fun _ _ => (100, LStat.NORMAL)) 380 380 380 30 30 30 "Medium" = some re ∧
      analyze_mechanical_conditions ⟨1, 1, 1, 1, 1, 1, 0, 0⟩ ⟨1, 1, 1, 1, 1, 1, 0, 0⟩
        "rigid" "Diesel" = some rm ∧
      re.recommendations ≠ [] ∧ rm.recommendations ≠ [] := by
  have h0 : (analyze_electrical_conditions
      (fun _ _ _ => ((0:ℚ), VStat.NORMAL)) (fun _ _ _ => ((0:ℚ), VStat.NORMAL))
      (fun _ _ => ((100:ℚ), LStat.NORMAL)) 380 380 380 30 30 30 "Medium").isSome = true := rfl
  have h1 : (analyze_mechanical_conditions ⟨1, 1, 1, 1, 1, 1, 0, 0⟩ ⟨1, 1, 1, 1, 1, 1, 0, 0⟩
      "rigid" "Diesel").isSome = true := rfl
  have he := (Option.some_get h0).symm
  have hm := (Option.some_get h1).symm
  exact ⟨_, _, he, hm,
    recommendations_nonempty _ _ _ 380 380 380 30 30 30 "Medium" _
      ⟨1, 1, 1, 1, 1, 1, 0, 0⟩ ⟨1, 1, 1, 1, 1, 1, 0, 0⟩ "rigid" "Diesel" _ he hm⟩

/-- C9: the report wrappers substitute the documented defaults for every
absent field (380 V per phase, 0.0 for currents, pressures and flow,
"Medium" pump size, "Diesel" product) and delegate; hence a completely
empty input record still yields a complete assessment. -/
theorem report_wrappers_total_defaults
    (vImbF iImbF : ℚ → ℚ → ℚ → ℚ × VStat) (loadF : ℚ → ℚ → ℚ × LStat)
    (npshaF : ℚ → ℚ → ℚ → ℚ) (headF : ℚ → ℚ → ℚ)
    (ed : ElecData) (od : OperData) (sd : SpecData) :
    generate_electrical_report vImbF iImbF loadF ed sd
      = analyze_electrical_conditions vImbF iImbF loadF
          (ed.voltage_l1.getD 380) (ed.voltage_l2.getD 380) (ed.voltage_l3.getD 380)
          (ed.current_l1.getD 0) (ed.current_l2.getD 0) (ed.current_l3.getD 0)
          (sd.pump_size.getD "Medium") ∧
    generate_hydraulic_report npshaF headF od sd
      = analyze_hydraulic_conditions npshaF headF
          (od.suction_pressure.getD 0) (od.discharge_pressure.getD 0)
          (od.flow_rate.getD 0) (sd.product_type.getD "Diesel")
          (sd.pump_size.getD "Medium") none ∧
    (generate_electrical_report vImbF iImbF loadF emptyElecData emptySpecData).isSome
      = true ∧
    (generate_hydraulic_report npshaF headF emptyOperData emptySpecData).isSome = true := by
  refine ⟨rfl, rfl, rfl, rfl⟩

/-- `roundHalfEven` fixes `0`. -/
theorem roundHalfEven_zero : roundHalfEven 0 = 0 := by
  norm_num [roundHalfEven]

/-- `roundHalfEven` fixes `200`. -/
theorem roundHalfEven_twohundred : roundHalfEven 200 = 200 := by
  norm_num [roundHalfEven]

/-- `round2` fixes `0`. -/
theorem round2_zero : round2 0 = 0 := by
  norm_num [round2, roundHalfEven_zero]

/-- `round2` fixes `2`. -/
theorem round2_two : round2 2 = 2 := by
  have h : (2:ℚ) * 100 = 200 := by norm_num
  rw [round2, h, roundHalfEven_twohundred]
  norm_num

/-- The averages of the reading whose only nonzero amplitudes are
`DE_A = NDE_A = 2`. -/
theorem averages_axialTwo :
    calculate_average_vibration ⟨0, 0, 2, 0, 0, 2, 0, 0⟩ = ⟨0, 0, 2, 2⟩ := by
  simp only [calculate_average_vibration]
  norm_num [round2_zero, round2_two, max_def]

/-- C1 (code bug): with both units reading `DE_A = NDE_A = 2` (axial axis
dominant, so the primary fault is `FAULT_MAPPING "A"` =
"Misalignment / Coupling Issue"), the aggregator emits NO fault-specific
remedial action: its misalignment branch compares the primary fault against
the bare string "Misalignment", which `FAULT_MAPPING` never produces, so
the branch is dead and the output falls through to the normal-confirmation
message alone. -/
theorem mechanical_misalignment_recommendation_eval :
    (analyze_mechanical_conditions ⟨0, 0, 2, 0, 0, 2, 0, 0⟩ ⟨0, 0, 2, 0, 0, 2, 0, 0⟩
        "rigid" "Diesel").map (fun m => (m.primary_fault, m.recommendations))
    = some ("Misalignment / Coupling Issue",
        ["✅ Mechanical vibration within acceptable limits"]) := by
  norm_num [analyze_mechanical_conditions, generate_vibration_report,
    classify_vibration_zones, mkZoneInfo, get_zone_classification, lookupIso, ISO_LIMITS,
    List.find?, identify_fault_indicators, maxDirection, avrOf, analyze_hf_vibration,
    pyMaxZone3, pyMaxZone2, zoneIdx, get_zone_description, FAULT_MAPPING, averages_axialTwo,
    Option.bind_eq_bind]
  decide

/-- C2 (corrected): the original claim is false — the vibration analyzer
completes on a product type absent from `PRODUCT_PROPERTIES` ("Water"),
because the product only feeds a membership test selecting the HF
threshold, never a table lookup. -/
theorem unknown_product_vibration_completes :
    lookupProduct "Water" = none ∧
    (generate_vibration_report ⟨1, 1, 1, 1, 1, 1, 0, 0⟩ "rigid" "Water").isSome = true :=
  ⟨rfl, rfl⟩

/-- C2 (amended): each analyzer fails, returning no assessment, on an
unknown value of every enum it actually looks up — the electrical analyzer
on an unknown pump size, the hydraulic analyzer on an unknown pump size or
product type, the vibration report on an unknown foundation type — while
the vibration report completes whenever the foundation type is known,
whatever the product type. -/
theorem unknown_enum_lookup_failures
    (vImbF iImbF : ℚ → ℚ → ℚ → ℚ × VStat) (loadF : ℚ → ℚ → ℚ × LStat)
    (npshaF : ℚ → ℚ → ℚ → ℚ) (headF : ℚ → ℚ → ℚ)
    (v1 v2 v3 i1 i2 i3 sp dp fl : ℚ) (ps pt ft : String) (t : Option ℚ)
    (d : VibrationData) :
    (lookupPump ps = none →
      analyze_electrical_conditions vImbF iImbF loadF v1 v2 v3 i1 i2 i3 ps = none) ∧
    (lookupPump ps = none →
      analyze_hydraulic_conditions npshaF headF sp dp fl pt ps t = none) ∧
    (lookupProduct pt = none →
      analyze_hydraulic_conditions npshaF headF sp dp fl pt ps t = none) ∧
    (lookupIso ft = none → generate_vibration_report d ft pt = none) ∧
    ((lookupIso ft).isSome = true → (generate_vibration_report d ft pt).isSome = true) := by
  refine ⟨?_, ?_, ?_, ?_, ?_⟩
  · intro hp
    simp [analyze_electrical_conditions, hp]
  · intro hp
    simp [analyze_hydraulic_conditions, hp]
  · intro hp
    cases hpp : lookupPump ps with
    | none => simp [analyze_hydraulic_conditions, hpp]
    | some prof => simp [analyze_hydraulic_conditions, calculate_npsha, hpp, hp]
  · intro hf
    simp [generate_vibration_report, classify_vibration_zones, mkZoneInfo,
      get_zone_classification, hf]
  · intro hf
    obtain ⟨lim, hlim⟩ := Option.isSome_iff_exists.mp hf
    simp [generate_vibration_report, classify_vibration_zones, mkZoneInfo,
      get_zone_classification, hlim]

/-- Witness for `unknown_enum_lookup_failures` at concrete enum values. -/
theorem unknown_enum_lookup_failures_witness :
    analyze_electrical_conditions (fun _ _ _ => (0, VStat.NORMAL))
        (fun _ _ _ => (0, VStat.NORMAL)) (fun _ _ => (100, LStat.NORMAL))
        380 380 380 30 30 30 "Huge" = none ∧
    analyze_hydraulic_conditions (fun _ _ _ => 5) (fun _ _ => 1)
        50 450 20 "Diesel" "Huge" none = none ∧
    analyze_hydraulic_conditions (fun _ _ _ => 5) (fun _ _ => 1)
        50 450 20 "Water" "Medium" none = none ∧
    generate_vibration_report ⟨1, 1, 1, 1, 1, 1, 0, 0⟩ "concrete" "Diesel" = none ∧
    (generate_vibration_report ⟨1, 1, 1, 1, 1, 1, 0, 0⟩ "rigid" "Diesel").isSome = true := by
  refine ⟨?_, ?_, ?_, ?_, ?_⟩
  · exact (unknown_enum_lookup_failures _ _ _ (fun _ _ _ => 5) (fun _ _ => 1)
      380 380 380 30 30 30 50 450 20 "Huge" "Diesel" "rigid" none
      ⟨1, 1, 1, 1, 1, 1, 0, 0⟩).1 rfl
  · exact (unknown_enum_lookup_failures (fun _ _ _ => (0, VStat.NORMAL))
      (fun _ _ _ => (0, VStat.NORMAL)) (fun _ _ => (100, LStat.NORMAL)) _ _
      380 380 380 30 30 30 50 450 20 "Huge" "Diesel" "rigid" none
      ⟨1, 1, 1, 1, 1, 1, 0, 0⟩).2.1 rfl
  · exact (unknown_enum_lookup_failures (fun _ _ _ => (0, VStat.NORMAL))
      (fun _ _ _ => (0, VStat.NORMAL)) (fun _ _ => (100, LStat.NORMAL)) _ _
      380 380 380 30 30 30 50 450 20 "Medium" "Water" "rigid" none
      ⟨1, 1, 1, 1, 1, 1, 0, 0⟩).2.2.1 rfl
  · exact (unknown_enum_lookup_failures (fun _ _ _ => (0, VStat.NORMAL))
      (fun _ _ _ => (0, VStat.NORMAL)) (fun _ _ => (100, LStat.NORMAL))
      (fun _ _ _ => 5) (fun _ _ => 1)
      380 380 380 30 30 30 50 450 20 "Medium" "Diesel" "concrete" none
      ⟨1, 1, 1, 1, 1, 1, 0, 0⟩).2.2.2.1 rfl
  · exact (unknown_enum_lookup_failures (fun _ _ _ => (0, VStat.NORMAL))
      (fun _ _ _ => (0, VStat.NORMAL)) (fun _ _ => (100, LStat.NORMAL))
      (fun _ _ _ => 5) (fun _ _ => 1)
      380 380 380 30 30 30 50 450 20 "Medium" "Diesel" "rigid" none
      ⟨1, 1, 1, 1, 1, 1, 0, 0⟩).2.2.2.2 rfl

end PumpDiag
